import Mathlib

/-!
Verification of the seeding and inspection scripts of
open-source-attendance-logger against their specification.

The repository holds three Python scripts:
 - src/src-tauri/src/insertSchoolAccounts.py : seeds one semester row and
   four school_accounts rows inside a single SQLite transaction;
 - src/src-tauri/src/showTable.py : lists tables and columns;
 - src/src-tauri/src/showSchoolAccounts.py : prints the count and the rows
   of the school_accounts table.

The scripts are embedded shallowly: the SQLite store is a pair of row
lists keyed by filesystem path, a connection carries a committed and a
pending view (closing without commit discards the pending view, which is
how SQLite rolls back an uncommitted transaction), randomness is an
explicit oracle, and exceptions are modelled by a fault parameter naming
the step at which the underlying library raises.
-/

set_option maxHeartbeats 1000000
set_option maxRecDepth 8000

/-- A row of the semesters table. -/
structure Semester where
  id : String
  label : String
deriving DecidableEq, Repr, Inhabited

/-- A row of the school_accounts table, with the 13 columns used by
insertSchoolAccounts.py. -/
structure SchoolAccount where
  id : String
  school_id : String
  first_name : String
  middle_name : String
  last_name : String
  gender : Nat
  course : String
  department : String
  position : String
  major : String
  year_level : String
  is_active : Nat
  last_updated_semester_id : Option String
deriving DecidableEq, Repr, Inhabited

/-- The two tables the scripts touch, in one SQLite database file. -/
structure Store where
  semesters : List Semester
  school_accounts : List SchoolAccount
deriving DecidableEq, Repr, Inhabited

/-- The filesystem maps each database path to its committed store. -/
abbrev FS := String → Store

/-! ### Random school_id generation (insertSchoolAccounts.py lines 9-11)

generate_random_school_id joins 8 draws of random.choices over
string.ascii_letters + string.digits. The random source is modelled as an
explicit function giving each of the 8 draws. -/

/-- The population string.ascii_letters + string.digits: lower-case letters,
then upper-case letters, then digits, 62 characters. -/
def school_id_alphabet : List Char :=
  "abcdefghijklmnopqrstuvwxyzABCDEFGHIJKLMNOPQRSTUVWXYZ0123456789".toList

theorem school_id_alphabet_length : school_id_alphabet.length = 62 := rfl

/-- generate_random_school_id from insertSchoolAccounts.py: 8 independent
draws from the 62-character population, joined into a string. -/
def generate_random_school_id (draws : Fin 8 → Fin 62) : String :=
  ⟨(List.finRange 8).map fun i =>
    school_id_alphabet.get (Fin.cast school_id_alphabet_length.symm (draws i))⟩

/-! ### uuid4 string generation (uuid.uuid4 / str, CPython semantics)

uuid.uuid4() draws 16 random bytes, forces the variant bits (top two bits
of the clock_seq_hi byte become 10) and the version nibble (top nibble of
time_hi_and_version becomes 4), and str() renders the 128-bit integer as
32 zero-padded lower-case hex digits split 8-4-4-4-12 by hyphens. The 16
random bytes are modelled as a natural number taken mod 2 ^ 128. -/

def hexChars : List Char := "0123456789abcdef".toList

theorem hexChars_length : hexChars.length = 16 := rfl

/-- One lower-case hex digit for a value below 16. -/
def hexDigit (n : Nat) : Char :=
  if h : n < 16 then hexChars.get ⟨n, by rw [hexChars_length]; exact h⟩ else '0'

/-- Fixed-width big-endian hex rendering, as the zero-padded percent-032x
format used by str on a UUID. -/
def toHexDigits : Nat → Nat → List Char
  | 0, _ => []
  | len + 1, n => toHexDigits len (n / 16) ++ [hexDigit (n % 16)]

/-- The 128-bit integer of uuid.uuid4 given the raw 128 random bits:
bits 62-63 are forced to the RFC 4122 variant 10 and bits 76-79 to the
version nibble 4, per the CPython uuid module. -/
def uuid4_int (r : Nat) : Nat :=
  let i := r % 2 ^ 128
  let lo48 := i % 2 ^ 48
  let variant16 := i / 2 ^ 48 % 2 ^ 16
  let version16 := i / 2 ^ 64 % 2 ^ 16
  let top48 := i / 2 ^ 80
  lo48 + (variant16 % 2 ^ 14 + 2 ^ 15) * 2 ^ 48
    + (version16 % 2 ^ 12 + 4 * 2 ^ 12) * 2 ^ 64 + top48 * 2 ^ 80

/-- str(uuid.uuid4()) given the raw random bits: the 32 hex digits split
8-4-4-4-12 by hyphens. -/
def str_uuid4 (r : Nat) : String :=
  let h := toHexDigits 32 (uuid4_int r)
  ⟨h.take 8 ++ '-' :: ((h.drop 8).take 4 ++ '-' :: ((h.drop 12).take 4
    ++ '-' :: ((h.drop 16).take 4 ++ '-' :: h.drop 20)))⟩

/-- The canonical 36-character hyphenated layout: five hex-digit groups of
lengths 8, 4, 4, 4 and 12 separated by hyphens. -/
def isUuidCanonical (s : String) : Prop :=
  ∃ a b c d e : List Char,
    a.length = 8 ∧ b.length = 4 ∧ c.length = 4 ∧ d.length = 4 ∧ e.length = 12 ∧
    (∀ ch ∈ a, ch ∈ hexChars) ∧ (∀ ch ∈ b, ch ∈ hexChars) ∧
    (∀ ch ∈ c, ch ∈ hexChars) ∧ (∀ ch ∈ d, ch ∈ hexChars) ∧
    (∀ ch ∈ e, ch ∈ hexChars) ∧
    s.data = a ++ '-' :: (b ++ '-' :: (c ++ '-' :: (d ++ '-' :: e)))

theorem hexDigit_mem (n : Nat) : hexDigit n ∈ hexChars := by
  unfold hexDigit
  split
  · exact List.get_mem _ _ _
  · decide

theorem toHexDigits_length : ∀ len n : Nat, (toHexDigits len n).length = len := by
  intro len
  induction len with
  | zero => intro n; rfl
  | succ k ih => intro n; simp [toHexDigits, ih]

theorem toHexDigits_mem : ∀ len n : Nat, ∀ c ∈ toHexDigits len n, c ∈ hexChars := by
  intro len
  induction len with
  | zero => intro n c hc; simp [toHexDigits] at hc
  | succ k ih =>
      intro n c hc
      simp only [toHexDigits, List.mem_append, List.mem_singleton] at hc
      rcases hc with hc | hc
      · exact ih _ c hc
      · subst hc; exact hexDigit_mem _

theorem str_uuid4_canonical (r : Nat) :
    isUuidCanonical (str_uuid4 r) ∧ (str_uuid4 r).length = 36 := by
  have hlen : (toHexDigits 32 (uuid4_int r)).length = 32 := toHexDigits_length 32 _
  have hmem : ∀ c ∈ toHexDigits 32 (uuid4_int r), c ∈ hexChars := toHexDigits_mem 32 _
  have hcanon : isUuidCanonical (str_uuid4 r) := by
    refine ⟨(toHexDigits 32 (uuid4_int r)).take 8,
      ((toHexDigits 32 (uuid4_int r)).drop 8).take 4,
      ((toHexDigits 32 (uuid4_int r)).drop 12).take 4,
      ((toHexDigits 32 (uuid4_int r)).drop 16).take 4,
      (toHexDigits 32 (uuid4_int r)).drop 20, ?_, ?_, ?_, ?_, ?_, ?_, ?_, ?_, ?_, ?_, rfl⟩
    · rw [List.length_take, hlen]; decide
    · rw [List.length_take, List.length_drop, hlen]; decide
    · rw [List.length_take, List.length_drop, hlen]; decide
    · rw [List.length_take, List.length_drop, hlen]; decide
    · rw [List.length_drop, hlen]
    · intro ch h; exact hmem ch (List.take_subset _ _ h)
    · intro ch h; exact hmem ch (List.drop_subset _ _ (List.take_subset _ _ h))
    · intro ch h; exact hmem ch (List.drop_subset _ _ (List.take_subset _ _ h))
    · intro ch h; exact hmem ch (List.drop_subset _ _ (List.take_subset _ _ h))
    · intro ch h; exact hmem ch (List.drop_subset _ _ h)
  refine ⟨hcanon, ?_⟩
  rcases hcanon with ⟨a, b, c, d, e, ha, hb, hc, hd, he, _, _, _, _, _, hs⟩
  have hldata : (str_uuid4 r).length = (str_uuid4 r).data.length := rfl
  rw [hldata, hs]
  simp [List.length_append, ha, hb, hc, hd, he]

/-! ### Randomness oracle and the fixed batch of insertSchoolAccounts.py -/

/-- The random values a seeding run consumes, in program order: uuid k is
the raw 128 bits behind the k-th uuid.uuid4() call (k = 0 is the semester
id, k = i + 1 the id of the i-th account), and sid i gives the 8 draws
behind the i-th generate_random_school_id() call. -/
structure RandOracle where
  uuid : Nat → Nat
  sid : Nat → Fin 8 → Fin 62

/-- The fixed semester label of insertSchoolAccounts.py. -/
def semester_label : String := "2023-2024 Second Semester"

/-- accounts_to_insert from insertSchoolAccounts.py lines 32-41: four
hard-coded rows, each with a fresh uuid id, a fresh random school_id, and
the semester id of the current run. -/
def accounts_to_insert (o : RandOracle) (semester_id : String) : List SchoolAccount :=
  [ { id := str_uuid4 (o.uuid 1), school_id := generate_random_school_id (o.sid 0),
      first_name := "John", middle_name := "Doe", last_name := "Smith",
      gender := 0, course := "Computer Science", department := "Engineering",
      position := "Student", major := "Software Engineering", year_level := "3rd Year",
      is_active := 1, last_updated_semester_id := some semester_id },
    { id := str_uuid4 (o.uuid 2), school_id := generate_random_school_id (o.sid 1),
      first_name := "Jane", middle_name := "Mary", last_name := "Johnson",
      gender := 1, course := "Information Technology", department := "Engineering",
      position := "Student", major := "Network Security", year_level := "2nd Year",
      is_active := 1, last_updated_semester_id := some semester_id },
    { id := str_uuid4 (o.uuid 3), school_id := generate_random_school_id (o.sid 2),
      first_name := "Michael", middle_name := "Lee", last_name := "Taylor",
      gender := 0, course := "Civil Engineering", department := "Engineering",
      position := "Student", major := "Structural Design", year_level := "4th Year",
      is_active := 1, last_updated_semester_id := some semester_id },
    { id := str_uuid4 (o.uuid 4), school_id := generate_random_school_id (o.sid 3),
      first_name := "Emily", middle_name := "Anne", last_name := "Brown",
      gender := 1, course := "Electronics Engineering", department := "Engineering",
      position := "Student", major := "Robotics", year_level := "3rd Year",
      is_active := 1, last_updated_semester_id := some semester_id } ]

/-! ### Connection and run model

A connection carries the committed on-disk store of its path and the
pending in-transaction view. INSERTs change only the pending view; commit
copies pending onto committed; close writes the committed store back to
the filesystem, which discards any uncommitted pending changes, exactly
as sqlite3 rolls back an open transaction when the connection closes. -/

structure Conn where
  path : String
  committed : Store
  pending : Store

namespace sqlite3

/-- sqlite3.connect: open the store at a path. -/
def connect (fs : FS) (p : String) : Conn := ⟨p, fs p, fs p⟩

end sqlite3

/-- cursor.execute of the INSERT INTO semesters statement. -/
def Conn.execInsertSemester (c : Conn) (s : Semester) : Conn :=
  { c with pending := { c.pending with semesters := c.pending.semesters ++ [s] } }

/-- cursor.executemany of the INSERT INTO school_accounts statement. -/
def Conn.execInsertAccounts (c : Conn) (l : List SchoolAccount) : Conn :=
  { c with pending := { c.pending with
      school_accounts := c.pending.school_accounts ++ l } }

/-- conn.commit: the pending view becomes the committed store. -/
def Conn.commit (c : Conn) : Conn := { c with committed := c.pending }

/-- conn.close: the committed store is what the filesystem keeps;
uncommitted pending changes are discarded. -/
def Conn.close (fs : FS) (c : Conn) : FS :=
  fun p => if p = c.path then c.committed else fs p

/-- The fault points of insert_data at which the sqlite3 library can
raise: the connect call, the two INSERTs, the commit, and the post-commit
verification SELECTs. -/
inductive Step
  | connect
  | insertSemester
  | insertAccounts
  | commit
  | verify
deriving DecidableEq, Repr

/-- How a script run ends: normally, with the exception caught and printed
by the except block, or with an exception escaping the function. -/
inductive RunOutcome
  | ok
  | caughtError
  | uncaught
deriving DecidableEq, Repr

/-- Connection lifecycle events of one run. -/
inductive ConnEvent
  | opened
  | closed
deriving DecidableEq, Repr

/-- The observable result of one script run: the filesystem after the run,
how the run ended, and the connection events it performed. -/
structure RunResult where
  fs : FS
  outcome : RunOutcome
  conn_events : List ConnEvent

namespace insertSchoolAccounts

/-- The hard-coded path of insertSchoolAccounts.py line 7. -/
def DB_PATH : String := "/home/ssd-ubuntu2/.config/nameoftheapp/latest_db_nov_27.db"

/-- insert_data from insertSchoolAccounts.py: inside try, connect, insert
one semester row, insert the four-account batch, commit, then run the
verification SELECTs; the except block catches any exception and prints
it; the finally block runs conn.close() guarded by the truthiness test of
conn. When the connect call itself raises, the except block prints the
error but the finally block evaluates the name conn, which was never
bound, so the finally block raises UnboundLocalError, which escapes the
function. A fault at any later step is caught and the close in finally
discards the uncommitted transaction. -/
def insert_data (o : RandOracle) (fault : Option Step) (fs : FS) : RunResult :=
  if fault = some Step.connect then
    ⟨fs, RunOutcome.uncaught, []⟩
  else
    let conn := sqlite3.connect fs DB_PATH
    let semester_id := str_uuid4 (o.uuid 0)
    if fault = some Step.insertSemester then
      ⟨Conn.close fs conn, RunOutcome.caughtError, [ConnEvent.opened, ConnEvent.closed]⟩
    else
      let conn := conn.execInsertSemester ⟨semester_id, semester_label⟩
      let accounts := accounts_to_insert o semester_id
      if fault = some Step.insertAccounts then
        ⟨Conn.close fs conn, RunOutcome.caughtError, [ConnEvent.opened, ConnEvent.closed]⟩
      else
        let conn := conn.execInsertAccounts accounts
        if fault = some Step.commit then
          ⟨Conn.close fs conn, RunOutcome.caughtError, [ConnEvent.opened, ConnEvent.closed]⟩
        else
          let conn := conn.commit
          if fault = some Step.verify then
            ⟨Conn.close fs conn, RunOutcome.caughtError, [ConnEvent.opened, ConnEvent.closed]⟩
          else
            ⟨Conn.close fs conn, RunOutcome.ok, [ConnEvent.opened, ConnEvent.closed]⟩

end insertSchoolAccounts

/-- The fault points of the read-only scripts: the connect call or any of
the queries run after it. -/
inductive ShowFault
  | connect
  | query
deriving DecidableEq, Repr

namespace showTable

/-- The hard-coded path of showTable.py line 4. -/
def DB_PATH : String := "/home/ssd-ubuntu2/.config/nameoftheapp/latest_db_nov_27.db"

/-- show_tables_and_columns from showTable.py: connect, run read-only
metadata queries, print; except prints any error; finally closes the
connection guarded by the truthiness test of conn. As in insert_data, a
fault at the connect call leaves conn unbound and the finally block
raises UnboundLocalError out of the function. -/
def show_tables_and_columns (fault : Option ShowFault) (fs : FS) : RunResult :=
  if fault = some ShowFault.connect then
    ⟨fs, RunOutcome.uncaught, []⟩
  else
    let conn := sqlite3.connect fs DB_PATH
    if fault = some ShowFault.query then
      ⟨Conn.close fs conn, RunOutcome.caughtError, [ConnEvent.opened, ConnEvent.closed]⟩
    else
      ⟨Conn.close fs conn, RunOutcome.ok, [ConnEvent.opened, ConnEvent.closed]⟩

end showTable

/-- The console lines of show_school_account_details that the claims
observe: the count line, one detail block per account, the no-accounts
line, and the error line of the except block. -/
inductive ShowOut
  | totalCount (n : Nat)
  | accountDetail (a : SchoolAccount)
  | noAccounts
  | error
deriving DecidableEq, Repr

namespace showSchoolAccounts

/-- The hard-coded path of showSchoolAccounts.py line 4; note it differs
from the path of insertSchoolAccounts.py. -/
def DB_PATH : String := "/home/ssd-ubuntu2/.config/nameoftheapp/latest_db_nov_27v1.db"

/-- show_school_account_details from showSchoolAccounts.py: connect, print
the COUNT of school_accounts, then either a detail block per row or the
no-accounts line; except prints any error; finally closes the connection
guarded by the truthiness test of conn, so a fault at the connect call
again raises UnboundLocalError out of the function. -/
def show_school_account_details (fault : Option ShowFault) (fs : FS) :
    List ShowOut × RunResult :=
  if fault = some ShowFault.connect then
    ([], ⟨fs, RunOutcome.uncaught, []⟩)
  else
    let conn := sqlite3.connect fs DB_PATH
    if fault = some ShowFault.query then
      ([ShowOut.error],
       ⟨Conn.close fs conn, RunOutcome.caughtError, [ConnEvent.opened, ConnEvent.closed]⟩)
    else
      let accounts := conn.pending.school_accounts
      (ShowOut.totalCount accounts.length ::
        (if accounts.isEmpty then [ShowOut.noAccounts]
         else accounts.map ShowOut.accountDetail),
       ⟨Conn.close fs conn, RunOutcome.ok, [ConnEvent.opened, ConnEvent.closed]⟩)

end showSchoolAccounts

/-! ### Concrete inputs used by witnesses -/

/-- A concrete randomness oracle: all uuid bits zero, all draws zero. -/
def oZero : RandOracle := ⟨fun _ => 0, fun _ _ => ⟨0, by omega⟩⟩

/-- A concrete randomness oracle: all uuid bits one, all draws one. -/
def oOne : RandOracle := ⟨fun _ => 1, fun _ _ => ⟨1, by omega⟩⟩

/-- A filesystem whose every store holds the schema and no rows. -/
def emptyFS : FS := fun _ => ⟨[], []⟩

/-- Concrete draws for the school_id generator: all zero. -/
def drawsZero : Fin 8 → Fin 62 := fun _ => ⟨0, by omega⟩

/-! ### The reduced seeding variant (modelled from the spec) -/

/-- Modelled from the spec: a row of the child table targeted by the
repository's reduced 5-column seeding variant, whose script is not under
src (only the extended 13-column variant insertSchoolAccounts.py is).
Spec section 6: the child table of this variant uses the 5-column minimal
form, so it lacks the extended columns; the extended columns are modelled
as optional values that default to unset. -/
structure ReducedRow where
  id : String
  school_id : String
  first_name : String
  middle_name : String
  last_name : String
  gender : Option Nat := none
  course : Option String := none
  department : Option String := none
  position : Option String := none
  major : Option String := none
  year_level : Option String := none
  is_active : Option Nat := none
  last_updated_semester_id : Option String := none
deriving DecidableEq, Repr, Inhabited

/-- Modelled from the spec: the reduced seeding operation (spec section
4.1), which inserts child records only, no parent/semester row, using the
identity and name fields, each record pre-populated with a generated
unique id and a generated short code. It targets the 5-column table and
returns the grown table. -/
def reduced_seed (o : RandOracle) (names : List (String × String × String))
    (table : List ReducedRow) : Except String (List ReducedRow) :=
  Except.ok (table ++ names.enum.map fun p =>
    { id := str_uuid4 (o.uuid p.1), school_id := generate_random_school_id (o.sid p.1),
      first_name := p.2.1, middle_name := p.2.2.1, last_name := p.2.2.2 })

/-! ### Helper lemmas -/

/-- Closing a connection whose committed store still equals the on-disk
store leaves the filesystem unchanged at every path. -/
theorem close_unchanged (fs : FS) (c : Conn) (hc : c.committed = fs c.path) :
    ∀ p, Conn.close fs c p = fs p := by
  intro p
  unfold Conn.close
  split
  · rename_i h; rw [hc, h]
  · rfl

theorem accounts_to_insert_length (o : RandOracle) (s : String) :
    (accounts_to_insert o s).length = 4 := rfl

/-! ### Claim theorems -/

/-- C1: when insert_data succeeds, exactly one new semester row and as
many new school_accounts rows as the supplied batch holds are in the
committed store; when any step up to and including the commit faults, the
run is rolled back and no rows of either kind are persisted anywhere. -/
theorem insert_data_atomicity (o : RandOracle) (fault : Option Step) (fs : FS) :
    ((insertSchoolAccounts.insert_data o fault fs).outcome = RunOutcome.ok →
      ((insertSchoolAccounts.insert_data o fault fs).fs insertSchoolAccounts.DB_PATH).semesters.length
        = (fs insertSchoolAccounts.DB_PATH).semesters.length + 1
      ∧ ((insertSchoolAccounts.insert_data o fault fs).fs insertSchoolAccounts.DB_PATH).school_accounts.length
        = (fs insertSchoolAccounts.DB_PATH).school_accounts.length
          + (accounts_to_insert o (str_uuid4 (o.uuid 0))).length)
    ∧ ((fault = some Step.connect ∨ fault = some Step.insertSemester
        ∨ fault = some Step.insertAccounts ∨ fault = some Step.commit) →
      ∀ p, (insertSchoolAccounts.insert_data o fault fs).fs p = fs p) := by
  constructor
  · intro h
    have hf : fault = none := by
      cases fault with
      | none => rfl
      | some s => cases s <;> simp [insertSchoolAccounts.insert_data] at h
    subst hf
    refine ⟨?_, ?_⟩ <;>
      simp [insertSchoolAccounts.insert_data, sqlite3.connect, Conn.close,
        Conn.execInsertSemester, Conn.execInsertAccounts, Conn.commit,
        List.length_append]
  · intro hf p
    rcases hf with rfl | rfl | rfl | rfl
    · rfl
    · exact close_unchanged fs _ rfl p
    · exact close_unchanged fs _ rfl p
    · exact close_unchanged fs _ rfl p

/-- Witness for C1: on the empty filesystem a clean run adds one semester
row, and a run that faults at the commit leaves the store unchanged. -/
theorem insert_data_atomicity_witness :
    ((insertSchoolAccounts.insert_data oZero none emptyFS).fs insertSchoolAccounts.DB_PATH).semesters.length
      = (emptyFS insertSchoolAccounts.DB_PATH).semesters.length + 1
    ∧ (insertSchoolAccounts.insert_data oZero (some Step.commit) emptyFS).fs insertSchoolAccounts.DB_PATH
      = emptyFS insertSchoolAccounts.DB_PATH := by
  constructor
  · exact ((insert_data_atomicity oZero none emptyFS).1 rfl).1
  · exact (insert_data_atomicity oZero (some Step.commit) emptyFS).2 (by simp) _

/-- C2: evaluation at the failing input. The claim says every fault,
including a failure of the connect call, is caught inside the script and
the process exits normally. The code disagrees on the connect step: when
sqlite3.connect raises, the except block prints the error but the finally
block evaluates the name conn, which was never bound, so UnboundLocalError
escapes the function in all three scripts; a fault at any step after a
successful connect is indeed caught. -/
theorem connect_failure_uncaught :
    (insertSchoolAccounts.insert_data oZero (some Step.connect) emptyFS).outcome
        = RunOutcome.uncaught
    ∧ (showTable.show_tables_and_columns (some ShowFault.connect) emptyFS).outcome
        = RunOutcome.uncaught
    ∧ (showSchoolAccounts.show_school_account_details (some ShowFault.connect) emptyFS).2.outcome
        = RunOutcome.uncaught
    ∧ (insertSchoolAccounts.insert_data oZero (some Step.insertSemester) emptyFS).outcome
        = RunOutcome.caughtError
    ∧ (showTable.show_tables_and_columns (some ShowFault.query) emptyFS).outcome
        = RunOutcome.caughtError
    ∧ (showSchoolAccounts.show_school_account_details (some ShowFault.query) emptyFS).2.outcome
        = RunOutcome.caughtError :=
  ⟨rfl, rfl, rfl, rfl, rfl, rfl⟩

/-- C3: every generated school_id string has length exactly 8 and draws
all of its characters from the 62-symbol alphanumeric population; the
generator is total, with no error conditions. -/
theorem generate_random_school_id_spec (draws : Fin 8 → Fin 62) :
    (generate_random_school_id draws).length = 8
    ∧ (∀ c ∈ (generate_random_school_id draws).data, c ∈ school_id_alphabet)
    ∧ school_id_alphabet.length = 62 := by
  refine ⟨?_, ?_, rfl⟩
  · show ((List.finRange 8).map _).length = 8
    rw [List.length_map, List.length_finRange]
  · intro c hc
    have hm : c ∈ (List.finRange 8).map (fun i =>
        school_id_alphabet.get (Fin.cast school_id_alphabet_length.symm (draws i))) := hc
    rw [List.mem_map] at hm
    rcases hm with ⟨i, _, hi⟩
    exact hi ▸ List.get_mem _ _ _

/-- Witness for C3: a character of a concretely generated school_id is in
the population. -/
theorem generate_random_school_id_spec_witness :
    'a' ∈ school_id_alphabet :=
  (generate_random_school_id_spec drawsZero).2.1 'a' (by decide)

/-- C4: every unique identifier generated during seeding, the semester id
and the id of each account of the batch, is a 36-character string in the
canonical hyphenated 8-4-4-4-12 hex-digit layout. -/
theorem seeding_ids_canonical (o : RandOracle) :
    (isUuidCanonical (str_uuid4 (o.uuid 0)) ∧ (str_uuid4 (o.uuid 0)).length = 36)
    ∧ ∀ a ∈ accounts_to_insert o (str_uuid4 (o.uuid 0)),
        isUuidCanonical a.id ∧ a.id.length = 36 := by
  refine ⟨str_uuid4_canonical _, ?_⟩
  intro a ha
  simp only [accounts_to_insert, List.mem_cons, List.not_mem_nil, or_false] at ha
  rcases ha with rfl | rfl | rfl | rfl <;> exact str_uuid4_canonical _

/-- Witness for C4: the id of the first account of a concrete run is in
the canonical layout. -/
theorem seeding_ids_canonical_witness :
    isUuidCanonical ((accounts_to_insert oZero (str_uuid4 (oZero.uuid 0))).headI.id)
    ∧ ((accounts_to_insert oZero (str_uuid4 (oZero.uuid 0))).headI.id).length = 36 :=
  (seeding_ids_canonical oZero).2 _ (by simp [accounts_to_insert])

/-- C5: on a successful seeding run the committed store gains exactly the
semester row of this run and the four-account batch, and the parent
reference of every row of the batch is populated and equals the id of
that semester row. -/
theorem inserted_rows_reference_run_semester (o : RandOracle) (fault : Option Step)
    (fs : FS)
    (h : (insertSchoolAccounts.insert_data o fault fs).outcome = RunOutcome.ok) :
    ((insertSchoolAccounts.insert_data o fault fs).fs insertSchoolAccounts.DB_PATH).semesters
      = (fs insertSchoolAccounts.DB_PATH).semesters
        ++ [{ id := str_uuid4 (o.uuid 0), label := semester_label }]
    ∧ ((insertSchoolAccounts.insert_data o fault fs).fs insertSchoolAccounts.DB_PATH).school_accounts
      = (fs insertSchoolAccounts.DB_PATH).school_accounts
        ++ accounts_to_insert o (str_uuid4 (o.uuid 0))
    ∧ ∀ a ∈ accounts_to_insert o (str_uuid4 (o.uuid 0)),
        a.last_updated_semester_id = some (str_uuid4 (o.uuid 0)) := by
  have hf : fault = none := by
    cases fault with
    | none => rfl
    | some s => cases s <;> simp [insertSchoolAccounts.insert_data] at h
  subst hf
  refine ⟨?_, ?_, ?_⟩
  · simp [insertSchoolAccounts.insert_data, sqlite3.connect, Conn.close,
      Conn.execInsertSemester, Conn.execInsertAccounts, Conn.commit, semester_label]
  · simp [insertSchoolAccounts.insert_data, sqlite3.connect, Conn.close,
      Conn.execInsertSemester, Conn.execInsertAccounts, Conn.commit]
  · intro a ha
    simp only [accounts_to_insert, List.mem_cons, List.not_mem_nil, or_false] at ha
    rcases ha with rfl | rfl | rfl | rfl <;> rfl

/-- Witness for C5: on the empty filesystem a clean run commits exactly
the one semester row, and the first account of the batch references its
id. -/
theorem inserted_rows_reference_run_semester_witness :
    ((insertSchoolAccounts.insert_data oZero none emptyFS).fs insertSchoolAccounts.DB_PATH).semesters
      = [{ id := str_uuid4 (oZero.uuid 0), label := semester_label }]
    ∧ (accounts_to_insert oZero (str_uuid4 (oZero.uuid 0))).headI.last_updated_semester_id
      = some (str_uuid4 (oZero.uuid 0)) := by
  have h := inserted_rows_reference_run_semester oZero none emptyFS rfl
  refine ⟨?_, h.2.2 _ (by simp [accounts_to_insert])⟩
  have h1 := h.1
  simpa [emptyFS] using h1

/-- C6 counterexample: the seeder writes to the store at its own
hard-coded path (latest_db_nov_27.db) while the account inspector reads
the store at a different hard-coded path (latest_db_nov_27v1.db). Running
the inspector immediately after a successful seed of the 4-record batch
into a fresh filesystem therefore reports a total count of 0 together
with the no-records line, not the count of 4 the claim states. -/
theorem inspect_after_seed_reports_zero :
    (showSchoolAccounts.show_school_account_details none
        ((insertSchoolAccounts.insert_data oZero none emptyFS).fs)).1
      = [ShowOut.totalCount 0, ShowOut.noAccounts]
    ∧ ShowOut.totalCount 0 ≠ ShowOut.totalCount 4 := by
  constructor
  · rfl
  · decide

/-- C6 amended: the inspector reports the count of the store at its own
path, which differs from the seeder's path, so a seeder run never changes
what the inspector sees; against a fresh/empty store it reports a total
count of 0 followed by the no-records line, and it reports a total count
of 4 exactly when the store at its own path holds 4 rows. -/
theorem inspector_reads_own_store (o : RandOracle) (fault : Option Step) (fs : FS) :
    showSchoolAccounts.DB_PATH ≠ insertSchoolAccounts.DB_PATH
    ∧ (insertSchoolAccounts.insert_data o fault fs).fs showSchoolAccounts.DB_PATH
        = fs showSchoolAccounts.DB_PATH
    ∧ ((fs showSchoolAccounts.DB_PATH).school_accounts = [] →
        (showSchoolAccounts.show_school_account_details none fs).1
          = [ShowOut.totalCount 0, ShowOut.noAccounts])
    ∧ ((fs showSchoolAccounts.DB_PATH).school_accounts.length = 4 →
        (showSchoolAccounts.show_school_account_details none fs).1.head?
          = some (ShowOut.totalCount 4)) := by
  have hne : showSchoolAccounts.DB_PATH ≠ insertSchoolAccounts.DB_PATH := by decide
  refine ⟨hne, ?_, ?_, ?_⟩
  · cases fault with
    | none =>
        simp [insertSchoolAccounts.insert_data, sqlite3.connect, Conn.close,
          Conn.execInsertSemester, Conn.execInsertAccounts, Conn.commit, hne]
    | some s =>
        cases s <;>
          simp [insertSchoolAccounts.insert_data, sqlite3.connect, Conn.close,
            Conn.execInsertSemester, Conn.execInsertAccounts, Conn.commit, hne]
  · intro h
    simp [showSchoolAccounts.show_school_account_details, sqlite3.connect, h]
  · intro h
    simp [showSchoolAccounts.show_school_account_details, sqlite3.connect, h]

/-- Witness for C6 amended: on the empty filesystem the inspector reports
a total count of 0 and the no-records line. -/
theorem inspector_reads_own_store_witness :
    (showSchoolAccounts.show_school_account_details none emptyFS).1
      = [ShowOut.totalCount 0, ShowOut.noAccounts] :=
  (inspector_reads_own_store oZero none emptyFS).2.2.1 rfl

/-- C7: for the fixed 4-record batch, the name fields of the inserted
rows are the same across any two runs, and whenever the random draws of
two runs yield different unique ids and different short codes, the two
runs disagree on the semester id, on the id of every account, and on the
school_id of every account: the only non-determinism lies in the
generated identifiers. -/
theorem fixed_batch_runs_names_same_ids_differ (o1 o2 : RandOracle)
    (hu : ∀ k : Fin 5, str_uuid4 (o1.uuid k.val) ≠ str_uuid4 (o2.uuid k.val))
    (hs : ∀ k : Fin 4, generate_random_school_id (o1.sid k.val)
        ≠ generate_random_school_id (o2.sid k.val)) :
    (accounts_to_insert o1 (str_uuid4 (o1.uuid 0))).map
        (fun a => (a.first_name, a.middle_name, a.last_name))
      = (accounts_to_insert o2 (str_uuid4 (o2.uuid 0))).map
        (fun a => (a.first_name, a.middle_name, a.last_name))
    ∧ str_uuid4 (o1.uuid 0) ≠ str_uuid4 (o2.uuid 0)
    ∧ (∀ i : Fin 4,
        ((accounts_to_insert o1 (str_uuid4 (o1.uuid 0))).get
            (Fin.cast (accounts_to_insert_length o1 _).symm i)).id
          ≠ ((accounts_to_insert o2 (str_uuid4 (o2.uuid 0))).get
            (Fin.cast (accounts_to_insert_length o2 _).symm i)).id)
    ∧ (∀ i : Fin 4,
        ((accounts_to_insert o1 (str_uuid4 (o1.uuid 0))).get
            (Fin.cast (accounts_to_insert_length o1 _).symm i)).school_id
          ≠ ((accounts_to_insert o2 (str_uuid4 (o2.uuid 0))).get
            (Fin.cast (accounts_to_insert_length o2 _).symm i)).school_id) := by
  refine ⟨?_, hu ⟨0, by omega⟩, ?_, ?_⟩
  · simp only [accounts_to_insert, List.map_cons, List.map_nil]
  · intro i
    fin_cases i
    · exact hu ⟨1, by omega⟩
    · exact hu ⟨2, by omega⟩
    · exact hu ⟨3, by omega⟩
    · exact hu ⟨4, by omega⟩
  · intro i
    fin_cases i
    · exact hs ⟨0, by omega⟩
    · exact hs ⟨1, by omega⟩
    · exact hs ⟨2, by omega⟩
    · exact hs ⟨3, by omega⟩

/-- Witness for C7: two concrete runs with different randomness keep the
same names and disagree on the semester id. -/
theorem fixed_batch_runs_names_same_ids_differ_witness :
    (accounts_to_insert oZero (str_uuid4 (oZero.uuid 0))).map
        (fun a => (a.first_name, a.middle_name, a.last_name))
      = (accounts_to_insert oOne (str_uuid4 (oOne.uuid 0))).map
        (fun a => (a.first_name, a.middle_name, a.last_name))
    ∧ str_uuid4 (oZero.uuid 0) ≠ str_uuid4 (oOne.uuid 0) := by
  have h := fixed_batch_runs_names_same_ids_differ oZero oOne (by decide) (by decide)
  exact ⟨h.1, h.2.1⟩

/-- C8: the reduced 5-column seeding variant succeeds against a store
whose child table lacks the extended columns, inserts one child row per
supplied record and no parent row, and leaves every extended column of
every inserted row unset. -/
theorem reduced_seed_leaves_extended_unset (o : RandOracle)
    (names : List (String × String × String)) (table : List ReducedRow) :
    ∃ inserted : List ReducedRow,
      reduced_seed o names table = Except.ok (table ++ inserted)
      ∧ inserted.length = names.length
      ∧ ∀ r ∈ inserted,
          r.gender = none ∧ r.course = none ∧ r.department = none
          ∧ r.position = none ∧ r.major = none ∧ r.year_level = none
          ∧ r.is_active = none ∧ r.last_updated_semester_id = none := by
  refine ⟨_, rfl, ?_, ?_⟩
  · rw [List.length_map, List.enum_length]
  · intro r hr
    rw [List.mem_map] at hr
    rcases hr with ⟨p, _, hp⟩
    subst hp
    exact ⟨rfl, rfl, rfl, rfl, rfl, rfl, rfl, rfl⟩

/-- Witness for C8: seeding one concrete record into the empty reduced
table succeeds and its extended columns are unset. -/
theorem reduced_seed_leaves_extended_unset_witness :
    ∃ inserted : List ReducedRow,
      reduced_seed oZero [("John", "Doe", "Smith")] [] = Except.ok ([] ++ inserted)
      ∧ inserted.length = 1
      ∧ ∀ r ∈ inserted,
          r.gender = none ∧ r.course = none ∧ r.department = none
          ∧ r.position = none ∧ r.major = none ∧ r.year_level = none
          ∧ r.is_active = none ∧ r.last_updated_semester_id = none :=
  reduced_seed_leaves_extended_unset oZero [("John", "Doe", "Smith")] []

/-- Depth check for connection traces: true when no prefix ever holds
more than one open connection and every opened connection is closed by
the end. -/
def connDepth : List ConnEvent → Nat → Bool
  | [], d => decide (d = 0)
  | ConnEvent.opened :: t, d => decide (d + 1 ≤ 1) && connDepth t (d + 1)
  | ConnEvent.closed :: t, d => decide (0 < d) && connDepth t (d - 1)

/-- C9: in every run of any of the three scripts in which the connect
call succeeds, the connection trace is exactly one open followed by one
close, whatever the body then does, so the connection is released in the
cleanup block on every such path and at most one connection is ever open
at a time. -/
theorem connection_scoped_per_run (o : RandOracle) (f1 : Option Step)
    (f2 f3 : Option ShowFault) (fs : FS)
    (h1 : f1 ≠ some Step.connect) (h2 : f2 ≠ some ShowFault.connect)
    (h3 : f3 ≠ some ShowFault.connect) :
    (insertSchoolAccounts.insert_data o f1 fs).conn_events
        = [ConnEvent.opened, ConnEvent.closed]
    ∧ (showTable.show_tables_and_columns f2 fs).conn_events
        = [ConnEvent.opened, ConnEvent.closed]
    ∧ (showSchoolAccounts.show_school_account_details f3 fs).2.conn_events
        = [ConnEvent.opened, ConnEvent.closed]
    ∧ connDepth [ConnEvent.opened, ConnEvent.closed] 0 = true := by
  refine ⟨?_, ?_, ?_, by decide⟩
  · cases f1 with
    | none => rfl
    | some s => cases s <;> first | exact absurd rfl h1 | rfl
  · cases f2 with
    | none => rfl
    | some s => cases s <;> first | exact absurd rfl h2 | rfl
  · cases f3 with
    | none => rfl
    | some s => cases s <;> first | exact absurd rfl h3 | rfl

/-- Witness for C9: a concrete fault-free run of each script opens and
then closes exactly one connection. -/
theorem connection_scoped_per_run_witness :
    (insertSchoolAccounts.insert_data oZero none emptyFS).conn_events
        = [ConnEvent.opened, ConnEvent.closed]
    ∧ (showSchoolAccounts.show_school_account_details none emptyFS).2.conn_events
        = [ConnEvent.opened, ConnEvent.closed] := by
  have h := connection_scoped_per_run oZero none none none emptyFS
    (by simp) (by simp) (by simp)
  exact ⟨h.1, h.2.2.1⟩

/-- C10: every successful insert_data run commits exactly one semester
row with the fixed label and exactly the fixed four-account batch, whose
size and non-generated field values are program constants: every row has
gender 0 or 1 and is_active 1, and the name columns are the four fixed
name triples. -/
theorem insert_data_success_fixed_shape (o : RandOracle) (fault : Option Step)
    (fs : FS)
    (h : (insertSchoolAccounts.insert_data o fault fs).outcome = RunOutcome.ok) :
    ((insertSchoolAccounts.insert_data o fault fs).fs insertSchoolAccounts.DB_PATH).semesters
      = (fs insertSchoolAccounts.DB_PATH).semesters
        ++ [{ id := str_uuid4 (o.uuid 0), label := "2023-2024 Second Semester" }]
    ∧ ((insertSchoolAccounts.insert_data o fault fs).fs insertSchoolAccounts.DB_PATH).school_accounts
      = (fs insertSchoolAccounts.DB_PATH).school_accounts
        ++ accounts_to_insert o (str_uuid4 (o.uuid 0))
    ∧ (accounts_to_insert o (str_uuid4 (o.uuid 0))).length = 4
    ∧ (∀ a ∈ accounts_to_insert o (str_uuid4 (o.uuid 0)),
        (a.gender = 0 ∨ a.gender = 1) ∧ a.is_active = 1)
    ∧ (accounts_to_insert o (str_uuid4 (o.uuid 0))).map
        (fun a => (a.first_name, a.middle_name, a.last_name))
      = [("John", "Doe", "Smith"), ("Jane", "Mary", "Johnson"),
         ("Michael", "Lee", "Taylor"), ("Emily", "Anne", "Brown")] := by
  have hf : fault = none := by
    cases fault with
    | none => rfl
    | some s => cases s <;> simp [insertSchoolAccounts.insert_data] at h
  subst hf
  refine ⟨?_, ?_, rfl, ?_, ?_⟩
  · simp [insertSchoolAccounts.insert_data, sqlite3.connect, Conn.close,
      Conn.execInsertSemester, Conn.execInsertAccounts, Conn.commit, semester_label]
  · simp [insertSchoolAccounts.insert_data, sqlite3.connect, Conn.close,
      Conn.execInsertSemester, Conn.execInsertAccounts, Conn.commit]
  · intro a ha
    simp only [accounts_to_insert, List.mem_cons, List.not_mem_nil, or_false] at ha
    rcases ha with rfl | rfl | rfl | rfl
    · exact ⟨Or.inl rfl, rfl⟩
    · exact ⟨Or.inr rfl, rfl⟩
    · exact ⟨Or.inl rfl, rfl⟩
    · exact ⟨Or.inr rfl, rfl⟩
  · simp only [accounts_to_insert, List.map_cons, List.map_nil]

/-- Witness for C10: a concrete fault-free run has the fixed batch size
and the fixed name columns. -/
theorem insert_data_success_fixed_shape_witness :
    (accounts_to_insert oZero (str_uuid4 (oZero.uuid 0))).length = 4
    ∧ (accounts_to_insert oZero (str_uuid4 (oZero.uuid 0))).map
        (fun a => (a.first_name, a.middle_name, a.last_name))
      = [("John", "Doe", "Smith"), ("Jane", "Mary", "Johnson"),
         ("Michael", "Lee", "Taylor"), ("Emily", "Anne", "Brown")] := by
  have h := insert_data_success_fixed_shape oZero none emptyFS rfl
  exact ⟨h.2.2.1, h.2.2.2.2⟩
